import Mathlib

/-
  Verification of the lang2query workflow orchestration engine.

  Shallow embedding of the Python sources:
    src/src/workflow.py               (Text2QueryWorkflow)
    src/src/models/models.py          (AgentState, AgentResult)
    src/src/helper/workflow_helpers.py (WorkflowRouter, StateManager)
    src/src/agents/human_in_the_loop.py (HumanInTheLoopAgent)
    src/src/api/routes/query.py       (apply_hitl_feedback)

  Python dictionaries are modelled as association lists, Python None as
  Option.none, and Python string truthiness is made explicit at each use.
-/

namespace Lang2Query

/-- Association-list lookup, modelling Python dict.get: first matching key wins. -/
def alookup {β : Type} (m : List (String × β)) (k : String) : Option β :=
  match m with
  | [] => none
  | (k', v) :: r => if k' = k then some v else alookup r k

/-- Association-list write, modelling Python dict item assignment. -/
def aset {β : Type} (m : List (String × β)) (k : String) (v : β) :
    List (String × β) :=
  match m with
  | [] => [(k, v)]
  | (k', v') :: r => if k' = k then (k, v) :: r else (k', v') :: aset r k v

/-
  String primitives. The kernel cannot reduce several library string functions
  (their definitions are by well-founded recursion on positions), so the Python
  string operations used by the workflow are modelled structurally on the
  underlying character lists. All strings involved are ASCII.
-/

/-- Python str.lower. -/
def py_lower (s : String) : String := ⟨s.data.map Char.toLower⟩

/-- Substring occurrence test on character lists. -/
def containsSub (needle : List Char) : List Char → Bool
  | [] => needle.isEmpty
  | c :: rest => needle.isPrefixOf (c :: rest) || containsSub needle rest

/-- Python substring test (needle in hay) for strings. -/
def py_in (needle hay : String) : Bool :=
  containsSub needle.data hay.data

/-- Replacement of every non-overlapping occurrence of pat, left to right, with
fuel to keep the recursion structural; the fuel bounds the number of steps,
each of which consumes at least one character. -/
def replaceSubFuel (pat repl : List Char) : Nat → List Char → List Char
  | 0, l => l
  | _ + 1, [] => []
  | fuel + 1, c :: rest =>
      if pat ≠ [] ∧ pat.isPrefixOf (c :: rest) then
        repl ++ replaceSubFuel pat repl fuel (List.drop (pat.length - 1) rest)
      else c :: replaceSubFuel pat repl fuel rest

/-- Python str.replace for a non-empty pattern. -/
def py_replace (s pat repl : String) : String :=
  ⟨replaceSubFuel pat.data repl.data s.data.length s.data⟩

/-- Python str.endswith. -/
def py_endsWith (s suffix : String) : Bool :=
  suffix.data.reverse.isPrefixOf s.data.reverse

/-- Python str.startswith. -/
def py_startsWith (s p : String) : Bool :=
  p.data.isPrefixOf s.data

/-- Python sep.join(parts). -/
def py_join (sep : String) : List String → String
  | [] => ""
  | [x] => x
  | x :: r => x ++ sep ++ py_join sep r

/-- Python single-character containment (c in s). -/
def py_contains_char (s : String) (c : Char) : Bool :=
  s.data.contains c

/-- Python expression a or b on optional strings: empty string and None are falsy. -/
def py_or (a b : Option String) : Option String :=
  match a with
  | some s => if s = "" then b else some s
  | none => b

/-- Truthiness of an optional string in Python: None and the empty string are falsy. -/
def py_truthy (a : Option String) : Bool :=
  match a with
  | some s => s ≠ ""
  | none => false

/-- The key under which a step looks up its retry budget:
step_name.lower().replace(' ', '_')  (workflow.py, _handle_step_retry). -/
def stepKey (step_name : String) : String :=
  py_replace (py_lower step_name) " " "_"

/-- models.py Query: a generated query with metadata. -/
structure Query where
  query : String
  database : String
  tables_used : List String
  columns_used : List String
  explanation : Option String
  query_type : String
deriving DecidableEq

/-- The validation feedback dictionary built by query_validator._create_feedback.
The issues field models the optional "issues" key (a list of issue descriptions)
read by _update_query_with_validation_feedback; the validator itself never writes it. -/
structure ValidationFeedback where
  overall_valid : Bool
  total_issues : Int
  suggestions : List String
  issues : List String
  issue_type : Option String
  reason : String
deriving DecidableEq

/-- models.py AgentState.pending_review payload: a review type and the items under review. -/
structure PendingReview where
  rtype : String
  items : List String
deriving DecidableEq

/-- models.py HumanFeedback: structured output of the HITL feedback-analysis LLM call. -/
structure HumanFeedback where
  selected_values : List String
  suggested_values : List String
  approval_status : String
  feedback_summary : String
  modification_type : String
  valid_suggestions : List String
  invalid_suggestions : List String
deriving DecidableEq

/-- The HITL feedback payload accepted by api/routes/query.py _apply_hitl_feedback,
after its own normalisation (strip on review_type, lower on action). -/
structure HitlFeedback where
  review_type : String
  action : String
  approved_items : List String
  feedback_text : Option String
deriving DecidableEq

/-- models.py AgentState: the single workflow state record. Optional fields model
Python fields whose value may be None. -/
structure AgentState where
  natural_language_query : String
  is_metadata_query : Option Bool
  dialect : Option String
  metadata_response : Option String
  metadata_type : Option String
  relevant_databases : List String
  relevant_tables : List String
  relevant_columns : List String
  schema_context : Option (List (String × String))
  query_plan : String
  generated_query : Option Query
  is_query_valid : Bool
  query_validation_feedback : Option ValidationFeedback
  current_step : String
  retries_left : Int
  step_retries_left : List (String × Int)
  interaction_mode : String
  api_mode : Bool
  human_feedback : Option String
  human_approvals : List (String × Bool)
  feedback_processed : Bool
  last_modification_type : Option String
  last_error_type : Option String
  user_message : Option String
  pending_review : Option PendingReview
  is_resuming : Bool
  resume_start_node : Option String
deriving DecidableEq

/-- models.py default for AgentState.step_retries_left: per-stage budget of 2. -/
def defaultStepRetries : List (String × Int) :=
  [("database_identifier", 2), ("table_identifier", 2), ("column_identifier", 2),
   ("schema_builder", 2), ("query_planner", 2), ("query_generator", 2),
   ("query_validator", 2), ("metadata_agent", 2),
   ("database_human_review", 2), ("table_human_review", 2)]

/-- The state process_query builds for a fresh execution (workflow.py):
all models.py defaults, current_step workflow_started, retries_left 3. -/
def initialState (q : String) (mode : String) : AgentState :=
  { natural_language_query := q
    is_metadata_query := none
    dialect := none
    metadata_response := none
    metadata_type := none
    relevant_databases := []
    relevant_tables := []
    relevant_columns := []
    schema_context := none
    query_plan := ""
    generated_query := none
    is_query_valid := false
    query_validation_feedback := none
    current_step := "workflow_started"
    retries_left := 3
    step_retries_left := defaultStepRetries
    interaction_mode := mode
    api_mode := false
    human_feedback := none
    human_approvals := []
    feedback_processed := false
    last_modification_type := none
    last_error_type := none
    user_message := none
    pending_review := none
    is_resuming := false
    resume_start_node := none }

/-- The keys an agent may place in its state_updates dictionary. This enumerates
every key appearing in a state_updates dict anywhere under src/src/agents;
notably no agent ever includes retries_left or step_retries_left. A field value
some v means the key is present with value v. -/
structure StateUpdates where
  is_metadata_query : Option (Option Bool) := none
  dialect : Option (Option String) := none
  metadata_response : Option (Option String) := none
  metadata_type : Option (Option String) := none
  relevant_databases : Option (List String) := none
  relevant_tables : Option (List String) := none
  relevant_columns : Option (List String) := none
  schema_context : Option (Option (List (String × String))) := none
  query_plan : Option String := none
  generated_query : Option (Option Query) := none
  is_query_valid : Option Bool := none
  query_validation_feedback : Option (Option ValidationFeedback) := none
  current_step : Option String := none
  human_feedback : Option (Option String) := none
  human_approvals : Option (List (String × Bool)) := none
  feedback_processed : Option Bool := none
  last_modification_type : Option (Option String) := none
  last_error_type : Option (Option String) := none
  pending_review : Option (Option PendingReview) := none
deriving DecidableEq

/-- The empty updates dictionary (falsy in Python). -/
def emptyUpdates : StateUpdates := {}

/-- models.py AgentResult: outcome of one agent process call. -/
structure AgentResult where
  success : Bool
  message : String
  state_updates : Option StateUpdates
deriving DecidableEq

/-- Outcome of calling agent.process(state) inside the engine wrapper: either a
returned AgentResult or a raised exception carrying its message. -/
inductive AgentOutcome where
  | result (r : AgentResult)
  | raises (msg : String)
deriving DecidableEq

/-- StateManager.update_state_with_preservation (workflow_helpers.py). The Python
code applies every key in updates via setattr and then restores retries_left and
is_query_valid when they were not among the update keys; since setattr only
touches keys present in updates, the net effect is: each field takes the update
value when present, the previous value otherwise. retries_left and
step_retries_left cannot occur in StateUpdates (no agent sends them), so they
are always unchanged. -/
def update_state_with_preservation (state : AgentState) (u : StateUpdates) :
    AgentState :=
  { state with
    is_metadata_query := u.is_metadata_query.getD state.is_metadata_query
    dialect := u.dialect.getD state.dialect
    metadata_response := u.metadata_response.getD state.metadata_response
    metadata_type := u.metadata_type.getD state.metadata_type
    relevant_databases := u.relevant_databases.getD state.relevant_databases
    relevant_tables := u.relevant_tables.getD state.relevant_tables
    relevant_columns := u.relevant_columns.getD state.relevant_columns
    schema_context := u.schema_context.getD state.schema_context
    query_plan := u.query_plan.getD state.query_plan
    generated_query := u.generated_query.getD state.generated_query
    is_query_valid := u.is_query_valid.getD state.is_query_valid
    query_validation_feedback :=
      u.query_validation_feedback.getD state.query_validation_feedback
    current_step := u.current_step.getD state.current_step
    human_feedback := u.human_feedback.getD state.human_feedback
    human_approvals := u.human_approvals.getD state.human_approvals
    feedback_processed := u.feedback_processed.getD state.feedback_processed
    last_modification_type :=
      u.last_modification_type.getD state.last_modification_type
    last_error_type := u.last_error_type.getD state.last_error_type
    pending_review := u.pending_review.getD state.pending_review }

/-- Text2QueryWorkflow._handle_step_retry (workflow.py lines 475-501). Returns the
updated state and the boolean the Python function returns (True when a retry was
initiated). The budget key is computed from the display step name via stepKey. -/
def handle_step_retry (state : AgentState) (step_name error_step : String) :
    AgentState × Bool :=
  match alookup state.step_retries_left (stepKey step_name) with
  | some n =>
      if n > 0 then
        ({ state with
            step_retries_left :=
              aset state.step_retries_left (stepKey step_name) (n - 1)
            current_step := error_step ++ "_retry"
            last_error_type := some "step_retry" }, true)
      else
        ({ state with current_step := error_step ++ "_failed" }, false)
  | none => ({ state with current_step := error_step ++ "_failed" }, false)

/-- The per-stage configuration passed to Text2QueryWorkflow._run_agent. -/
structure StageCfg where
  step_name : String
  success_step : String
  error_step : String
deriving DecidableEq

/-- Text2QueryWorkflow._run_agent (workflow.py lines 439-468): sets the
processing step label, calls the agent, merges successful updates and stamps the
success step, and converts failures and raised exceptions into
_handle_step_retry. The Python truthiness test on result.state_updates is false
for None and for an empty dict. -/
def run_agent (state : AgentState) (cfg : StageCfg) (outcome : AgentOutcome) :
    AgentState :=
  let st := { state with current_step := "processing_" ++ stepKey cfg.step_name }
  match outcome with
  | .raises _ => (handle_step_retry st cfg.step_name cfg.error_step).1
  | .result r =>
      match r.state_updates with
      | some u =>
          if r.success ∧ u ≠ emptyUpdates then
            { update_state_with_preservation st u with
                current_step := cfg.success_step }
          else
            (handle_step_retry st cfg.step_name cfg.error_step).1
      | none => (handle_step_retry st cfg.step_name cfg.error_step).1

/-- Stage configurations as instantiated in workflow.py. -/
def metadataAgentCfg : StageCfg :=
  ⟨"Metadata Agent", "metadata_completed", "metadata_error"⟩

def databaseIdentificationCfg : StageCfg :=
  ⟨"Database Identification", "database_identification_completed",
   "database_identification"⟩

def tableIdentifierCfg : StageCfg :=
  ⟨"Table Identifier", "table_identification_completed", "table_identifier"⟩

def columnIdentifierCfg : StageCfg :=
  ⟨"Column Identifier", "column_identification_completed", "column_identifier"⟩

def schemaBuilderCfg : StageCfg :=
  ⟨"Schema Builder", "schema_building_completed", "schema_building"⟩

def queryPlanningCfg : StageCfg :=
  ⟨"Query Planning", "query_planning_completed", "query_planning"⟩

def queryGenerationCfg : StageCfg :=
  ⟨"Query Generation", "query_generation_completed", "query_generation"⟩

def queryValidationCfg : StageCfg :=
  ⟨"Query Validation", "query_validation_completed", "query_validation"⟩

/-- Text2QueryWorkflow._decrement_retry_and_log (workflow.py lines 845-848). -/
def decrement_retry_and_log (state : AgentState) : AgentState :=
  { state with retries_left := state.retries_left - 1 }

/-- Text2QueryWorkflow._run_query_validator (workflow.py lines 794-810): runs the
validator through _run_agent, then decrements the workflow retry budget when the
query is still invalid and retries remain. -/
def run_query_validator (state : AgentState) (outcome : AgentOutcome) :
    AgentState :=
  let rs := run_agent state queryValidationCfg outcome
  if ¬rs.is_query_valid ∧ rs.retries_left > 0 then decrement_retry_and_log rs
  else rs

/-- The LangGraph END sentinel returned by some routing functions. -/
def END : String := "__end__"

/-- WorkflowRouter.check_permanent_failure (workflow_helpers.py), as called with
its default arguments: returns END when the current step is marked failed or
error, and none otherwise (the Python empty string, falsy). -/
def check_permanent_failure (state : AgentState) : Option String :=
  if py_endsWith state.current_step "_failed" ∨
      py_endsWith state.current_step "_error"
  then some END else none

/-- WorkflowRouter.route_after_router (workflow_helpers.py lines 107-121). When
resuming, the Python code returns getattr(state, "resume_start_node",
"database_identifier"); the attribute always exists on a pydantic model, so the
value returned is exactly resume_start_node, None included. A none result
models Python returning None. -/
def route_after_router (state : AgentState) : Option String :=
  if state.is_resuming then state.resume_start_node
  else if state.is_metadata_query.getD false then some "metadata_agent"
  else some "database_identifier"

/-- WorkflowRouter.route_after_database_identifier (workflow_helpers.py). -/
def route_after_database_identifier (state : AgentState) : String :=
  match check_permanent_failure state with
  | some r => r
  | none =>
      if state.last_error_type = some "step_retry" ∧ ¬state.is_resuming then
        "database_identifier"
      else if state.interaction_mode = "interactive" then "database_human_review"
      else "table_identifier"

/-- WorkflowRouter.route_after_table_identifier (workflow_helpers.py). -/
def route_after_table_identifier (state : AgentState) : String :=
  match check_permanent_failure state with
  | some r => r
  | none =>
      if state.last_error_type = some "step_retry" ∧ ¬state.is_resuming then
        "table_identifier"
      else if state.interaction_mode = "interactive" then "table_human_review"
      else "column_identifier"

/-- WorkflowRouter.route_after_database_human_feedback (workflow_helpers.py lines
146-166). Note that the Python function mutates the state it is given: it clears
feedback_processed on the redisplay branch. We return the possibly-updated state
together with the chosen target. -/
def route_after_database_human_feedback (state : AgentState) :
    AgentState × String :=
  let approved := (alookup state.human_approvals "databases").getD false
  if approved then (state, "table_identifier")
  else if state.feedback_processed ∧
      (state.last_modification_type = some "add" ∨
       state.last_modification_type = some "remove" ∨
       state.last_modification_type = some "modify") then
    ({ state with feedback_processed := false }, "database_human_review")
  else (state, "database_identifier")

/-- WorkflowRouter.route_after_table_human_feedback (workflow_helpers.py lines
190-211); mutates feedback_processed on the redisplay branch, like the database
variant. -/
def route_after_table_human_feedback (state : AgentState) :
    AgentState × String :=
  let approved := (alookup state.human_approvals "tables").getD false
  if approved then (state, "column_identifier")
  else if state.feedback_processed ∧
      (state.last_modification_type = some "add" ∨
       state.last_modification_type = some "remove" ∨
       state.last_modification_type = some "modify") then
    ({ state with feedback_processed := false }, "table_human_review")
  else (state, "table_identifier")

/-- WorkflowRouter._get_next_step_from_current (workflow_helpers.py): substring
match of each completion label against the current step, in dict order. -/
def get_next_step_from_current (state : AgentState) : String :=
  if py_in "column_identification_completed" state.current_step then
    "schema_builder"
  else if py_in "schema_building_completed" state.current_step then
    "query_planner"
  else if py_in "query_planning_completed" state.current_step then
    "query_generator"
  else if py_in "query_generation_completed" state.current_step then
    "query_validator"
  else END

/-- WorkflowRouter.route_after_pipeline_step (workflow_helpers.py lines 213-232).
The retried step name is current_step with every occurrence of _retry removed,
as the Python str.replace does. -/
def route_after_pipeline_step (state : AgentState) : String :=
  if state.last_error_type = some "step_retry" ∧
      py_endsWith state.current_step "_retry" then
    py_replace state.current_step "_retry" ""
  else
    match check_permanent_failure state with
    | some r => r
    | none => get_next_step_from_current state

/-- WorkflowRouter.route_after_metadata_step (workflow_helpers.py lines 234-251). -/
def route_after_metadata_step (state : AgentState) : String :=
  if state.last_error_type = some "step_retry" then "metadata_agent"
  else
    match check_permanent_failure state with
    | some r => r
    | none => END

/-- The issue type consulted by _route_after_validation (workflow.py lines
541-542): feedback.get("issue_type") or state.last_error_type, with Python
falsy-chaining. -/
def get_issue_type (state : AgentState) : Option String :=
  py_or (state.query_validation_feedback.bind (·.issue_type))
    state.last_error_type

/-- The advisory message set by _handle_exhausted_retries (workflow.py line 821). -/
def advisory_message : String :=
  "Query generated with validation issues after maximum retries. Please review the query and validation feedback carefully."

/-- Text2QueryWorkflow._update_query_with_validation_feedback (workflow.py lines
825-843): rewrite the query explanation from the outstanding validation issues
and suggestions. -/
def update_query_with_validation_feedback (q : Query)
    (feedback : Option ValidationFeedback) : Query :=
  let validation_issues := (feedback.map (·.issues)).getD []
  let suggestions := (feedback.map (·.suggestions)).getD []
  let parts :=
    (if validation_issues ≠ [] then
      ["Issues found: " ++ py_join "; " validation_issues] else []) ++
    (if suggestions ≠ [] then
      ["Suggestions: " ++ py_join "; " suggestions] else [])
  let combined :=
    "This query has validation issues but is the best result available: "
      ++ py_join " " parts
  let fallback :=
    "This query has validation issues but is the best result available after maximum retry attempts."
  if parts ≠ [] then { q with explanation := some combined }
  else { q with explanation := some fallback }

/-- Text2QueryWorkflow._handle_exhausted_retries (workflow.py lines 813-823):
keep the last produced query annotated with the outstanding feedback and set the
advisory user message; the user message is only set when a query exists. -/
def handle_exhausted_retries (state : AgentState) : AgentState :=
  let st :=
    match state.generated_query with
    | some q =>
        { state with
            generated_query := some
              (update_query_with_validation_feedback q
                state.query_validation_feedback)
            user_message := some advisory_message }
    | none => state
  { st with current_step := "max_retries_exhausted" }

/-- Text2QueryWorkflow._route_after_validation together with its branch helpers
_route_insufficient_data, _route_schema_missing, _route_query_scope_issue,
_route_sql_issue and _route_unknown_issue (workflow.py lines 524-589). The
Python function mutates current_step (and, through _handle_exhausted_retries,
the query and user message); we return the updated state with the target. -/
def route_after_validation (state : AgentState) : AgentState × String :=
  if state.is_query_valid then
    ({ state with current_step := "workflow_completed" }, "end")
  else
    let issue_type := get_issue_type state
    if state.retries_left ≤ 0 then
      (handle_exhausted_retries state, "end")
    else if issue_type = some "insufficient_data" then
      ({ state with current_step := "retry_due_to_insufficient_data" },
        "database_identifier")
    else if issue_type = some "schema_missing" then
      ({ state with current_step := "route_to_table_identifier" },
        "table_identifier")
    else if issue_type = some "query_scope_issue" then
      ({ state with current_step := "route_to_database_identifier_scope_issue" },
        "database_identifier")
    else if issue_type = some "sql_generation_issue" ∨
        issue_type = some "data_type_mismatch" ∨
        issue_type = some "join_relationship_error" then
      ({ state with current_step :=
          "route_to_query_planner_" ++ (issue_type.getD "") }, "query_planner")
    else
      ({ state with current_step := "retry_unknown_issue" },
        "database_identifier")

/-- HumanInTheLoopAgent._get_items_data for the two instances used by the
workflow: the data source is the attribute relevant_<confirmation_type>. -/
def relevant_items (state : AgentState) (ct : String) : List String :=
  if ct = "databases" then state.relevant_databases
  else if ct = "tables" then state.relevant_tables
  else []

/-- HumanInTheLoopAgent._normalize_items (human_in_the_loop.py lines 455-495).
findDb models _find_database_for_table, the retriever-backed search through the
relevant databases for a database containing the table. -/
def normalize_items (ct : String) (findDb : String → Option String)
    (items : List String) : List String :=
  if items = [] then []
  else if ct = "databases" then items
  else if ct = "tables" then
    items.map (fun item =>
      if py_contains_char item '.' then item
      else
        match findDb item with
        | some db => db ++ "." ++ item
        | none => item)
  else items

/-- The add loop of _convert_feedback_to_state_updates: append each item not
already present, keeping order. -/
def append_missing (current toAdd : List String) : List String :=
  toAdd.foldl
    (fun acc item => if acc.contains item then acc else acc ++ [item]) current

/-- The removal set of the remove branch: the suggested values, and for tables
also every current item that is a dot-qualified version of an unqualified
suggestion. -/
def remove_set (ct : String) (current toRemove : List String) : List String :=
  if ct = "tables" then
    toRemove ++ current.filter (fun c =>
      toRemove.any (fun i => ¬py_contains_char i '.' ∧ py_endsWith c ("." ++ i)))
  else toRemove

/-- The item-modification phase of _convert_feedback_to_state_updates
(human_in_the_loop.py lines 366-437). The first component is the
relevant_<ct> update (present only when the code writes it), the second the
changes_made flag, the third the human_feedback update as of that point,
starting from hf1. -/
def modification_effects (ct : String) (findDb : String → Option String)
    (state : AgentState) (fb : HumanFeedback) (hf1 : Option (Option String)) :
    Option (List String) × Bool × Option (Option String) :=
  let current := relevant_items state ct
  if ct = "databases" ∨ ct = "tables" then
    if fb.modification_type = "replace" then
      if fb.selected_values ≠ [] then
        (some fb.selected_values, fb.selected_values ≠ current, hf1)
      else (some [], current ≠ [], hf1)
    else if fb.modification_type = "add" then
      let items_to_add := normalize_items ct findDb fb.valid_suggestions
      let newItems := append_missing current items_to_add
      let changed := items_to_add ≠ [] ∧ newItems.length > current.length
      let relU : Option (List String) :=
        if changed then some newItems else none
      let hf2 : Option (Option String) :=
        if fb.invalid_suggestions ≠ [] then
          let current_feedback : Option String :=
            match hf1 with
            | some v => v
            | none => some fb.feedback_summary
          let invalid_list := py_join ", "
            (fb.invalid_suggestions.map (fun i => "\"" ++ i ++ "\""))
          some (some ((match current_feedback with
                        | some s => s
                        | none => "None")
              ++ " (Note: " ++ invalid_list ++ " not found in knowledge base)"))
        else hf1
      (relU, changed, hf2)
    else if fb.modification_type = "remove" then
      let toRemove := remove_set ct current fb.suggested_values
      let filtered := current.filter (fun c => ¬toRemove.contains c)
      (some filtered, filtered.length ≠ current.length, hf1)
    else (none, false, hf1)
  else (none, false, hf1)

/-- The changes_made flag of _convert_feedback_to_state_updates: whether the
add, remove or replace interpretation produced a net change to the reviewed
list (the flag does not depend on the human_feedback bookkeeping). -/
def feedback_changes_made (ct : String) (findDb : String → Option String)
    (state : AgentState) (fb : HumanFeedback) : Bool :=
  (modification_effects ct findDb state fb none).2.1

/-- HumanInTheLoopAgent._convert_feedback_to_state_updates (human_in_the_loop.py
lines 326-453), translated branch by branch. -/
def convert_feedback_to_state_updates (ct : String)
    (findDb : String → Option String) (state : AgentState)
    (fb : HumanFeedback) : StateUpdates :=
  let approvals1 :=
    if fb.approval_status = "APPROVE" then aset state.human_approvals ct true
    else aset state.human_approvals ct false
  let hf1 : Option (Option String) :=
    if fb.approval_status = "APPROVE" ∨ fb.approval_status = "REJECT" then
      some none
    else some (some fb.feedback_summary)
  let fp1 : Option Bool :=
    if fb.approval_status = "APPROVE" ∨ fb.approval_status = "REJECT" then
      some false
    else none
  let lmt1 : Option (Option String) :=
    if fb.approval_status = "APPROVE" then some (some "approve")
    else if fb.approval_status = "REJECT" then some (some "reject")
    else some (some fb.modification_type)
  let phase2 := modification_effects ct findDb state fb hf1
  let relU := phase2.1
  let changes_made := phase2.2.1
  let hf2 := phase2.2.2
  let fpF : Option Bool :=
    if fb.approval_status = "MODIFY" then some changes_made else fp1
  let hfF : Option (Option String) :=
    if fb.approval_status = "MODIFY" then some none else hf2
  let approvalsF :=
    if fb.approval_status = "MODIFY" ∧ ¬changes_made then aset approvals1 ct true
    else approvals1
  { human_feedback := hfF
    human_approvals := some approvalsF
    feedback_processed := fpF
    last_modification_type := lmt1
    relevant_databases := if ct = "databases" then relU else none
    relevant_tables := if ct = "tables" then relU else none }

/-- HumanInTheLoopAgent.process (human_in_the_loop.py lines 42-96). isValid
models the retriever check _validate_item_with_retriever; llm models the
structured HumanFeedback produced by the feedback-analysis LLM call (only
consulted when stored human feedback is present). Python truthiness makes an
empty item list take the no-items branch and an empty feedback string take the
awaiting-approval branch. -/
def hitl_process (ct : String) (findDb : String → Option String)
    (isValid : String → Bool) (llm : HumanFeedback) (state : AgentState) :
    AgentResult :=
  let items := relevant_items state ct
  if items = [] then
    { success := true
      message := "No " ++ ct ++ " to review, proceeding"
      state_updates := some
        { human_approvals := some [(ct, true)]
          human_feedback := some (some "no_items") } }
  else if py_truthy state.human_feedback then
    let analyzed := { llm with
      valid_suggestions := llm.suggested_values.filter isValid
      invalid_suggestions := llm.suggested_values.filter (fun i => ¬isValid i) }
    { success := true
      message := "Human feedback applied (resume)"
      state_updates :=
        some (convert_feedback_to_state_updates ct findDb state analyzed) }
  else
    { success := true
      message := "Awaiting human approval for " ++ ct
      state_updates := some
        { pending_review := some (some ⟨ct, items⟩)
          human_approvals := some (aset state.human_approvals ct false)
          human_feedback := some none } }

/-- Text2QueryWorkflow._run_router (workflow.py lines 611-648): skips agent
processing while resuming, otherwise merges routing results; failures and
exceptions become routing_failed and routing_error. -/
def run_router_node (state : AgentState) (outcome : AgentOutcome) : AgentState :=
  let st := { state with current_step := "processing_routing" }
  if st.is_resuming then { st with current_step := "routing_completed" }
  else
    match outcome with
    | .raises _ => { st with current_step := "routing_error" }
    | .result r =>
        match r.state_updates with
        | some u =>
            if r.success ∧ u ≠ emptyUpdates then
              { update_state_with_preservation st u with
                  current_step := "routing_completed" }
            else { st with current_step := "routing_failed" }
        | none => { st with current_step := "routing_failed" }

/-- Text2QueryWorkflow._run_database_human_review and _run_table_human_review
(workflow.py lines 662-730), parameterised by the review name
(database_review or table_review). -/
def run_hitl_review (review_name : String) (state : AgentState)
    (outcome : AgentOutcome) : AgentState :=
  let st := { state with current_step := "processing_" ++ review_name }
  match outcome with
  | .raises _ => { st with current_step := review_name ++ "_error" }
  | .result r =>
      match r.state_updates with
      | some u =>
          if r.success ∧ u ≠ emptyUpdates then
            { update_state_with_preservation st u with
                current_step := review_name ++ "_completed" }
          else { st with current_step := review_name ++ "_failed" }
      | none => { st with current_step := review_name ++ "_failed" }

/-- api/routes/query.py _apply_hitl_feedback (lines 99-115): merge approval
feedback into the suspended state. -/
def apply_hitl_feedback (state : AgentState) (fb : HitlFeedback) : AgentState :=
  if fb.review_type ≠ "databases" ∧ fb.review_type ≠ "tables" then state
  else
    let st := { state with
      human_approvals :=
        aset state.human_approvals fb.review_type (fb.action = "approve")
      human_feedback := fb.feedback_text }
    if fb.approved_items ≠ [] then
      if fb.review_type = "databases" then
        { st with relevant_databases := fb.approved_items }
      else { st with relevant_tables := fb.approved_items }
    else st

/-- resume_from_state (workflow.py lines 164-213): the engine marks the state as
resuming and records the start node before re-entering the graph. -/
def mark_resuming (state : AgentState) (node : String) : AgentState :=
  { state with is_resuming := true, resume_start_node := some node }

/-- The step_to_node_mapping dict of _determine_resume_node (workflow.py). -/
def step_to_node_mapping (cs : String) : Option String :=
  alookup
    [("routing_completed", "database_identifier"),
     ("database_identification_completed", "table_identifier"),
     ("database_review_completed", "table_identifier"),
     ("table_identification_completed", "column_identifier"),
     ("table_review_completed", "column_identifier"),
     ("column_identification_completed", "schema_builder"),
     ("schema_building_completed", "query_planner"),
     ("query_planning_completed", "query_generator"),
     ("query_generation_completed", "query_validator"),
     ("query_validation_completed", "end"),
     ("database_identification_failed", "database_identifier"),
     ("table_identifier_failed", "table_identifier"),
     ("column_identifier_failed", "column_identifier"),
     ("schema_building_failed", "schema_builder"),
     ("query_planning_failed", "query_planner"),
     ("query_generation_failed", "query_generator"),
     ("query_validation_failed", "query_validator")] cs

/-- The final fallback chain of _determine_resume_node, driven by which payloads
are present (Python truthiness on each field). -/
def resume_fallback (state : AgentState) : String :=
  if state.generated_query.isSome then "query_validator"
  else if state.query_plan ≠ "" then "query_generator"
  else if (match state.schema_context with
           | some l => decide (l ≠ [])
           | none => false) = true then "query_planner"
  else if state.relevant_columns ≠ [] then "schema_builder"
  else if state.relevant_tables ≠ [] then "column_identifier"
  else if state.relevant_databases ≠ [] then "table_identifier"
  else "database_identifier"

/-- The mapping lookup of _determine_resume_node with its special handling of
review steps whose approval was withheld. -/
def resume_from_mapping (state : AgentState) : String :=
  match step_to_node_mapping state.current_step with
  | some next_node =>
      if state.current_step = "table_review_completed" ∧
          ¬((alookup state.human_approvals "tables").getD true) then
        "table_identifier"
      else if state.current_step = "database_review_completed" ∧
          ¬((alookup state.human_approvals "databases").getD true) then
        "database_identifier"
      else next_node
  | none => resume_fallback state

/-- The validation-outcome and retry-step checks of _determine_resume_node that
run before the mapping lookup. -/
def resume_from_step (state : AgentState) : String :=
  let cs := state.current_step
  if cs = "query_validation_completed" ∧ ¬state.is_query_valid then
    let issue_type := get_issue_type state
    if issue_type = some "insufficient_data" then "database_identifier"
    else if issue_type = some "schema_missing" then "table_identifier"
    else if issue_type = some "sql_generation_issue" ∨
        issue_type = some "data_type_mismatch" ∨
        issue_type = some "join_relationship_error" then "query_planner"
    else "database_identifier"
  else if py_startsWith cs "retry_" ∨ py_startsWith cs "route_to_" then
    if py_in "insufficient_data" cs then "database_identifier"
    else if py_in "table_identifier" cs then "table_identifier"
    else if py_in "query_planner" cs then "query_planner"
    else if py_in "database_identifier" cs then "database_identifier"
    else resume_from_mapping state
  else resume_from_mapping state

/-- The pending-review checks of _determine_resume_node: resume at a human
review stage when its approval is absent or false and its item list non-empty. -/
def resume_pending_checks (state : AgentState) : String :=
  if ¬((alookup state.human_approvals "databases").getD false) ∧
      state.relevant_databases ≠ [] then "database_human_review"
  else if ¬((alookup state.human_approvals "tables").getD false) ∧
      state.relevant_tables ≠ [] then "table_human_review"
  else resume_from_step state

/-- Text2QueryWorkflow._determine_resume_node (workflow.py lines 913-1027). The
priority-1 block runs when stored human feedback is truthy and the current step
is not a completion step; inside it, the hasattr guards always hold on the
pydantic state, so the first applicable review stage is returned. -/
def determine_resume_node (state : AgentState) : String :=
  let cs := state.current_step
  if cs = "workflow_completed" ∨ cs = "workflow_failed" ∨
      cs = "max_retries_exhausted" then "end"
  else if py_truthy state.human_feedback ∧ ¬py_endsWith cs "_completed" then
    if cs ≠ "database_review_completed" then "database_human_review"
    else if cs ≠ "table_review_completed" then "table_human_review"
    else resume_pending_checks state
  else resume_pending_checks state

/-- query_validator._create_feedback (query_validator.py lines 181-205): the
feedback dict assembled after each validation, accumulating the issue count and
suggestions from the previous feedback. The validation_history entry is not
modelled (no routing logic reads it); the fresh dict carries no issues key. -/
def create_feedback (is_valid : Bool) (issue_type : String) (reason : String)
    (existing : Option ValidationFeedback) : ValidationFeedback :=
  { overall_valid := is_valid
    total_issues :=
      ((existing.map (·.total_issues)).getD 0) + (if is_valid then 0 else 1)
    suggestions :=
      ((existing.map (·.suggestions)).getD []) ++
        (if is_valid then [] else ["Regenerate query based on user intent"])
    issues := []
    issue_type := some issue_type
    reason := reason }

/-- The AgentResult returned by QueryValidatorAgent.process (query_validator.py
lines 29-81) for a completed LLM validation with the given verdict: the state
updates it sends back to the engine. -/
def validator_result (state : AgentState) (is_valid : Bool)
    (issue_type : String) (reason : String) : AgentResult :=
  { success := true
    message := if is_valid then "Validation result: valid"
               else "Validation result: invalid"
    state_updates := some
      { is_query_valid := some is_valid
        query_validation_feedback := some (some
          (create_feedback is_valid issue_type reason
            state.query_validation_feedback))
        last_error_type :=
          some (if is_valid then none else some issue_type)
        current_step := some "query_validated" } }

/- Concrete artifacts used in the scenario traces and witnesses. -/

def demoQuery : Query :=
  { query := "SELECT name FROM customers"
    database := "sales_db"
    tables_used := ["sales_db.customers"]
    columns_used := ["name"]
    explanation := some "Lists customer names"
    query_type := "sql" }

def baseState : AgentState := initialState "show me all customers" "ask"

def routerOk : AgentOutcome := .result
  { success := true
    message := "Query routing completed successfully"
    state_updates := some
      { is_metadata_query := some (some false)
        dialect := some (some "sql")
        current_step := some "query_routed" } }

def dbIdentOk : AgentOutcome := .result
  { success := true
    message := "Databases identified successfully"
    state_updates := some
      { relevant_databases := some ["sales_db"]
        current_step := some "databases_identified" } }

def tableIdentOk : AgentOutcome := .result
  { success := true
    message := "Tables identified successfully"
    state_updates := some
      { relevant_tables := some ["sales_db.customers"]
        current_step := some "tables_identified" } }

def columnIdentOk : AgentOutcome := .result
  { success := true
    message := "Columns identified successfully"
    state_updates := some
      { relevant_columns := some ["name"]
        current_step := some "columns_identified" } }

def schemaOk : AgentOutcome := .result
  { success := true
    message := "Schema context built for 1 databases and 1 tables"
    state_updates := some
      { schema_context := some (some [("formatted_schema", "customers(name)")])
        current_step := some "schema_built" } }

def plannerOk : AgentOutcome := .result
  { success := true
    message := "Query plan created successfully"
    state_updates := some
      { query_plan := some "1. select name from customers"
        current_step := some "query_planned" } }

def generatorOk : AgentOutcome := .result
  { success := true
    message := "Query generated successfully"
    state_updates := some
      { generated_query := some (some demoQuery)
        current_step := some "query_generated" } }

/-- One pass of the ask-mode pipeline from table identification up to query
generation, all stages succeeding. -/
def pipelineFromTables (s : AgentState) : AgentState :=
  let s := run_agent s tableIdentifierCfg tableIdentOk
  let s := run_agent s columnIdentifierCfg columnIdentOk
  let s := run_agent s schemaBuilderCfg schemaOk
  let s := run_agent s queryPlanningCfg plannerOk
  run_agent s queryGenerationCfg generatorOk

/-- Scenario A (spec section 8): a fresh ask-mode run in which the validator
rejects twice with reason schema_missing, each rejection routing back through
table identification, and accepts the third produced query. -/
def scenarioA : AgentState :=
  let s := run_router_node baseState routerOk
  let s := run_agent s databaseIdentificationCfg dbIdentOk
  let s := pipelineFromTables s
  let s := run_query_validator s
    (.result (validator_result s false "schema_missing" "Missing tables"))
  let s := (route_after_validation s).1
  let s := pipelineFromTables s
  let s := run_query_validator s
    (.result (validator_result s false "schema_missing" "Missing tables"))
  let s := (route_after_validation s).1
  let s := pipelineFromTables s
  let s := run_query_validator s
    (.result (validator_result s true "accepted" "Covers core intent"))
  (route_after_validation s).1



def afterFirstReject : AgentState :=
  let s := run_router_node baseState routerOk
  let s := run_agent s databaseIdentificationCfg dbIdentOk
  let s := pipelineFromTables s
  run_query_validator s
    (.result (validator_result s false "schema_missing" "Missing tables"))


-- C1 scratch


def noDb : String → Option String := fun _ => none
def allValid : String → Bool := fun _ => true

def c8State : AgentState :=
  { baseState with
      interaction_mode := "interactive"
      api_mode := true
      relevant_databases := ["sales_db"]
      relevant_tables := ["sales_db.customers", "sales_db.orders"]
      human_approvals := [("databases", true), ("tables", false)]
      human_feedback := some "keep only the orders table"
      current_step := "processing_table_review" }

def c8Llm : HumanFeedback :=
  { selected_values := ["sales_db.orders"]
    suggested_values := []
    approval_status := "MODIFY"
    feedback_summary := "Keep only the orders table"
    modification_type := "replace"
    valid_suggestions := []
    invalid_suggestions := [] }

def c8Merged : AgentState :=
  run_hitl_review "table_review" c8State
    (.result (hitl_process "tables" noDb allValid c8Llm c8State))


def c10State : AgentState := { baseState with interaction_mode := "interactive", api_mode := true }
def c10Merged : AgentState :=
  run_hitl_review "table_review" c10State
    (.result (hitl_process "tables" noDb allValid c8Llm c10State))

def c7Susp : AgentState :=
  { baseState with
      interaction_mode := "interactive"
      api_mode := true
      relevant_databases := ["sales_db"]
      relevant_tables := ["sales_db.customers"]
      human_approvals := [("databases", true), ("tables", false)]
      pending_review := some ⟨"tables", ["sales_db.customers"]⟩
      current_step := "table_review_completed" }
def c7Fb : HitlFeedback :=
  { review_type := "tables", action := "approve", approved_items := [], feedback_text := none }
def c7Resumed : AgentState := { apply_hitl_feedback c7Susp c7Fb with pending_review := none }

def c4State : AgentState :=
  { baseState with
      is_query_valid := false
      retries_left := 0
      generated_query := some demoQuery
      query_validation_feedback := some (create_feedback false "insufficient_data" "Not enough data" none) }

def c5State : AgentState :=
  { baseState with
      human_approvals := [("tables", false)]
      feedback_processed := true
      last_modification_type := some "modify" }

def c6State : AgentState := { baseState with is_resuming := true, resume_start_node := some "column_identifier" }

/-- The retry-budget invariant: the workflow budget and every per-stage budget
are non-negative. -/
def RetryInv (s : AgentState) : Prop :=
  0 ≤ s.retries_left ∧ ∀ kv ∈ s.step_retries_left, 0 ≤ kv.2

instance (s : AgentState) : Decidable (RetryInv s) := by
  unfold RetryInv; infer_instance

/-- Pointwise comparison of optional budgets: any surviving entry existed before
with a value at least as large. -/
def budget_le (o' o : Option Int) : Prop :=
  ∀ v', o' = some v' → ∃ v, o = some v ∧ v' ≤ v

/-- Pointwise non-increase of every per-stage budget. -/
def budgets_le (m' m : List (String × Int)) : Prop :=
  ∀ k, budget_le (alookup m' k) (alookup m k)

/-- Monotone non-increase of the retry counters between two states. -/
def RetryDecreasing (s s' : AgentState) : Prop :=
  s'.retries_left ≤ s.retries_left ∧
    budgets_le s'.step_retries_left s.step_retries_left

/-- One state mutation performed by the workflow engine: an agent node run
(generic stage, validator, router node, HITL review), a state-mutating routing
decision, the merge of HITL transport feedback, the clearing of a consumed
pending review, the resume marking, or the top-level failure handler. Pure
routing decisions return no state and are omitted. -/
inductive EngineStep : AgentState → AgentState → Prop where
  | agent_run (s : AgentState) (cfg : StageCfg) (o : AgentOutcome) :
      EngineStep s (run_agent s cfg o)
  | validator_run (s : AgentState) (o : AgentOutcome) :
      EngineStep s (run_query_validator s o)
  | router_node_run (s : AgentState) (o : AgentOutcome) :
      EngineStep s (run_router_node s o)
  | hitl_review_run (s : AgentState) (rn : String) (o : AgentOutcome) :
      EngineStep s (run_hitl_review rn s o)
  | validation_route (s : AgentState) :
      EngineStep s (route_after_validation s).1
  | database_feedback_route (s : AgentState) :
      EngineStep s (route_after_database_human_feedback s).1
  | table_feedback_route (s : AgentState) :
      EngineStep s (route_after_table_human_feedback s).1
  | hitl_feedback_merge (s : AgentState) (fb : HitlFeedback) :
      EngineStep s (apply_hitl_feedback s fb)
  | pending_cleared (s : AgentState) :
      EngineStep s { s with pending_review := none }
  | resume_marked (s : AgentState) (node : String) :
      EngineStep s (mark_resuming s node)
  | workflow_failed_set (s : AgentState) :
      EngineStep s { s with current_step := "workflow_failed" }

/-- Any finite run of the engine: the reflexive-transitive closure of single
engine steps. -/
def EngineSteps : AgentState → AgentState → Prop :=
  Relation.ReflTransGen EngineStep

/-- The updates the HITL agent returns when its reviewable list is empty. -/
def no_items_updates (ct : String) : StateUpdates :=
  { human_approvals := some [(ct, true)]
    human_feedback := some (some "no_items") }

theorem alookup_aset {β : Type} (m : List (String × β)) (k k' : String)
    (v : β) :
    alookup (aset m k v) k' = if k = k' then some v else alookup m k' := by
  induction m with
  | nil => by_cases h : k = k' <;> simp [aset, alookup, h]
  | cons a r ih =>
      obtain ⟨ak, av⟩ := a
      by_cases h1 : ak = k
      · subst h1
        by_cases h2 : ak = k' <;> simp [aset, alookup, h2]
      · by_cases h2 : ak = k'
        · subst h2
          have hne : ¬k = ak := fun h => h1 h.symm
          simp [aset, alookup, h1, hne]
        · simp [aset, alookup, h1, h2, ih]

theorem mem_aset {β : Type} {m : List (String × β)} {k : String} {v : β}
    {kv : String × β} (h : kv ∈ aset m k v) : kv ∈ m ∨ kv = (k, v) := by
  induction m with
  | nil =>
      simp [aset] at h
      simp [h]
  | cons a r ih =>
      obtain ⟨ak, av⟩ := a
      by_cases h1 : ak = k
      · subst h1
        simp only [aset, if_pos rfl] at h
        rcases List.mem_cons.mp h with h | h
        · exact Or.inr h
        · exact Or.inl (List.mem_cons_of_mem _ h)
      · simp only [aset, if_neg h1] at h
        rcases List.mem_cons.mp h with h | h
        · exact Or.inl (h ▸ List.mem_cons_self _ _)
        · rcases ih h with h' | h'
          · exact Or.inl (List.mem_cons_of_mem _ h')
          · exact Or.inr h'

theorem budget_le_refl (o : Option Int) : budget_le o o :=
  fun v' h => ⟨v', h, le_refl v'⟩

theorem budget_le_trans {a b c : Option Int} (h1 : budget_le a b)
    (h2 : budget_le b c) : budget_le a c := by
  intro v' hv
  obtain ⟨v, hb, hle⟩ := h1 v' hv
  obtain ⟨w, hc, hle2⟩ := h2 v hb
  exact ⟨w, hc, le_trans hle hle2⟩

theorem budgets_le_refl (m : List (String × Int)) : budgets_le m m :=
  fun _ => budget_le_refl _

theorem budgets_le_trans {a b c : List (String × Int)} (h1 : budgets_le a b)
    (h2 : budgets_le b c) : budgets_le a c :=
  fun k => budget_le_trans (h1 k) (h2 k)

theorem retry_decreasing_refl (s : AgentState) : RetryDecreasing s s :=
  ⟨le_refl _, budgets_le_refl _⟩

theorem retry_decreasing_trans {a b c : AgentState} (h1 : RetryDecreasing a b)
    (h2 : RetryDecreasing b c) : RetryDecreasing a c :=
  ⟨le_trans h2.1 h1.1, budgets_le_trans h2.2 h1.2⟩

/-- A state transition that leaves both retry fields untouched is monotone and
preserves the invariant. -/
theorem retry_frame {s x : AgentState} (h1 : x.retries_left = s.retries_left)
    (h2 : x.step_retries_left = s.step_retries_left) (hinv : RetryInv s) :
    RetryDecreasing s x ∧ RetryInv x := by
  refine ⟨⟨?_, ?_⟩, ⟨?_, ?_⟩⟩
  · rw [h1]
  · rw [h2]; exact budgets_le_refl _
  · rw [h1]; exact hinv.1
  · rw [h2]; exact hinv.2

theorem retry_decreasing_congr_left {s t x : AgentState}
    (h1 : t.retries_left = s.retries_left)
    (h2 : t.step_retries_left = s.step_retries_left)
    (h : RetryDecreasing t x) : RetryDecreasing s x := by
  refine ⟨?_, ?_⟩
  · rw [← h1]; exact h.1
  · rw [← h2]; exact h.2

theorem retry_inv_congr {s t : AgentState}
    (h1 : t.retries_left = s.retries_left)
    (h2 : t.step_retries_left = s.step_retries_left) (h : RetryInv s) :
    RetryInv t := by
  refine ⟨?_, ?_⟩
  · rw [h1]; exact h.1
  · rw [h2]; exact h.2

theorem handle_step_retry_retry (s : AgentState) (n e : String)
    (hinv : RetryInv s) :
    RetryDecreasing s (handle_step_retry s n e).1 ∧
      RetryInv (handle_step_retry s n e).1 := by
  unfold handle_step_retry
  split
  next nv hk =>
    split
    next hpos =>
      refine ⟨⟨le_refl _, ?_⟩, ⟨hinv.1, ?_⟩⟩
      · intro k v' hv
        simp only at hv
        rw [alookup_aset] at hv
        by_cases hkk : stepKey n = k
        · rw [if_pos hkk] at hv
          cases hv
          exact ⟨nv, hkk ▸ hk, by omega⟩
        · rw [if_neg hkk] at hv
          exact ⟨v', hv, le_refl _⟩
      · intro kv hkv
        rcases mem_aset hkv with h | h
        · exact hinv.2 kv h
        · rw [h]; simp; omega
    next hpos => exact retry_frame rfl rfl hinv
  next => exact retry_frame rfl rfl hinv

theorem run_agent_retry (s : AgentState) (cfg : StageCfg) (o : AgentOutcome)
    (hinv : RetryInv s) :
    RetryDecreasing s (run_agent s cfg o) ∧ RetryInv (run_agent s cfg o) := by
  unfold run_agent
  dsimp only
  have hst : RetryInv
      { s with current_step := "processing_" ++ stepKey cfg.step_name } :=
    retry_inv_congr rfl rfl hinv
  have h := handle_step_retry_retry
    { s with current_step := "processing_" ++ stepKey cfg.step_name }
    cfg.step_name cfg.error_step hst
  have hres := And.intro (retry_decreasing_congr_left rfl rfl h.1) h.2
  cases o with
  | raises m => exact hres
  | result r =>
      dsimp only
      cases hr : r.state_updates with
      | none => exact hres
      | some u =>
          dsimp only
          split
          next hcond => exact retry_frame rfl rfl hinv
          next hcond => exact hres

theorem run_query_validator_retry (s : AgentState) (o : AgentOutcome)
    (hinv : RetryInv s) :
    RetryDecreasing s (run_query_validator s o) ∧
      RetryInv (run_query_validator s o) := by
  unfold run_query_validator
  dsimp only
  have h := run_agent_retry s queryValidationCfg o hinv
  split
  next hcond =>
    unfold decrement_retry_and_log
    refine ⟨⟨?_, h.1.2⟩, ⟨?_, h.2.2⟩⟩
    · have := h.1.1
      simp only
      omega
    · have := hcond.2
      simp only
      omega
  next => exact h

theorem run_router_node_retry_frame (s : AgentState) (o : AgentOutcome) :
    (run_router_node s o).retries_left = s.retries_left ∧
      (run_router_node s o).step_retries_left = s.step_retries_left := by
  unfold run_router_node
  dsimp only
  repeat' split
  all_goals exact ⟨rfl, rfl⟩

theorem run_hitl_review_retry_frame (rn : String) (s : AgentState)
    (o : AgentOutcome) :
    (run_hitl_review rn s o).retries_left = s.retries_left ∧
      (run_hitl_review rn s o).step_retries_left = s.step_retries_left := by
  unfold run_hitl_review
  dsimp only
  repeat' split
  all_goals exact ⟨rfl, rfl⟩

theorem route_after_validation_retry_frame (s : AgentState) :
    (route_after_validation s).1.retries_left = s.retries_left ∧
      (route_after_validation s).1.step_retries_left = s.step_retries_left := by
  unfold route_after_validation handle_exhausted_retries
  dsimp only
  repeat' split
  all_goals exact ⟨rfl, rfl⟩

theorem route_after_database_human_feedback_retry_frame (s : AgentState) :
    (route_after_database_human_feedback s).1.retries_left = s.retries_left ∧
      (route_after_database_human_feedback s).1.step_retries_left =
        s.step_retries_left := by
  unfold route_after_database_human_feedback
  dsimp only
  repeat' split
  all_goals exact ⟨rfl, rfl⟩

theorem route_after_table_human_feedback_retry_frame (s : AgentState) :
    (route_after_table_human_feedback s).1.retries_left = s.retries_left ∧
      (route_after_table_human_feedback s).1.step_retries_left =
        s.step_retries_left := by
  unfold route_after_table_human_feedback
  dsimp only
  repeat' split
  all_goals exact ⟨rfl, rfl⟩

theorem apply_hitl_feedback_retry_frame (s : AgentState) (fb : HitlFeedback) :
    (apply_hitl_feedback s fb).retries_left = s.retries_left ∧
      (apply_hitl_feedback s fb).step_retries_left = s.step_retries_left := by
  unfold apply_hitl_feedback
  dsimp only
  repeat' split
  all_goals exact ⟨rfl, rfl⟩

/-- Every single engine step keeps the retry counters non-increasing and
non-negative. -/
theorem engine_step_retry {s s' : AgentState} (h : EngineStep s s')
    (hinv : RetryInv s) : RetryDecreasing s s' ∧ RetryInv s' := by
  cases h with
  | agent_run cfg o => exact run_agent_retry s cfg o hinv
  | validator_run o => exact run_query_validator_retry s o hinv
  | router_node_run o =>
      exact retry_frame (run_router_node_retry_frame s o).1
        (run_router_node_retry_frame s o).2 hinv
  | hitl_review_run rn o =>
      exact retry_frame (run_hitl_review_retry_frame rn s o).1
        (run_hitl_review_retry_frame rn s o).2 hinv
  | validation_route =>
      exact retry_frame (route_after_validation_retry_frame s).1
        (route_after_validation_retry_frame s).2 hinv
  | database_feedback_route =>
      exact retry_frame (route_after_database_human_feedback_retry_frame s).1
        (route_after_database_human_feedback_retry_frame s).2 hinv
  | table_feedback_route =>
      exact retry_frame (route_after_table_human_feedback_retry_frame s).1
        (route_after_table_human_feedback_retry_frame s).2 hinv
  | hitl_feedback_merge fb =>
      exact retry_frame (apply_hitl_feedback_retry_frame s fb).1
        (apply_hitl_feedback_retry_frame s fb).2 hinv
  | pending_cleared => exact retry_frame rfl rfl hinv
  | resume_marked node => exact retry_frame rfl rfl hinv
  | workflow_failed_set => exact retry_frame rfl rfl hinv

theorem handle_step_retry_current_step (s : AgentState) (n e : String) :
    (handle_step_retry s n e).1.current_step = e ++ "_retry" ∨
      (handle_step_retry s n e).1.current_step = e ++ "_failed" := by
  unfold handle_step_retry
  repeat' split
  · exact Or.inl rfl
  · exact Or.inr rfl
  · exact Or.inr rfl

/-- C1: the code contradicts the claimed per-stage retry protocol. On a fresh
state the declared budget step_retries_left[query_planner] is 2, yet a first
failure of the Query Planning stage transitions directly to permanent failure
(query_planning_failed) with no decrement, no retry marking and no re-route:
the handler looks up the key computed from the display step name
(query_planning), which is absent from the budget map. The same happens for
Database Identification, Query Generation and Query Validation. For contrast,
the Table Identifier stage, whose computed key matches its budget entry,
behaves exactly as the claim describes. -/
theorem c1_step_retry_key_mismatch :
    stepKey "Query Planning" = "query_planning"
  ∧ alookup baseState.step_retries_left "query_planner" = some 2
  ∧ alookup baseState.step_retries_left "query_planning" = none
  ∧ (handle_step_retry baseState "Query Planning" "query_planning").1.current_step
      = "query_planning_failed"
  ∧ (handle_step_retry baseState "Query Planning" "query_planning").2 = false
  ∧ (handle_step_retry baseState "Query Planning" "query_planning").1.step_retries_left
      = baseState.step_retries_left
  ∧ (run_agent baseState queryPlanningCfg (.raises "boom")).current_step
      = "query_planning_failed"
  ∧ (handle_step_retry baseState "Table Identifier" "table_identifier").1.current_step
      = "table_identifier_retry"
  ∧ (handle_step_retry baseState "Table Identifier" "table_identifier").1.last_error_type
      = some "step_retry"
  ∧ alookup (handle_step_retry baseState "Table Identifier"
      "table_identifier").1.step_retries_left "table_identifier" = some 1 := by
  decide

/-- C2: throughout every workflow execution, modelled as any finite sequence of
engine state mutations starting from a state whose retry counters are
non-negative (the fresh initial state in particular), retries_left and every
value in step_retries_left are monotonically non-increasing and never become
negative. -/
theorem c2_retry_budgets_monotone (s s' : AgentState) (h : EngineSteps s s')
    (hinv : RetryInv s) : RetryDecreasing s s' ∧ RetryInv s' := by
  induction h with
  | refl => exact ⟨retry_decreasing_refl s, hinv⟩
  | tail hsteps hstep ih =>
      obtain ⟨hdec, hinv2⟩ := ih
      obtain ⟨hdec2, hinv3⟩ := engine_step_retry hstep hinv2
      exact ⟨retry_decreasing_trans hdec hdec2, hinv3⟩

/-- Witness for C2: the fresh initial state satisfies the non-negativity
premise, and one concrete engine step from it is monotone. -/
theorem c2_retry_budgets_monotone_witness :
    RetryDecreasing baseState { baseState with pending_review := none } ∧
      RetryInv { baseState with pending_review := none } :=
  c2_retry_budgets_monotone baseState { baseState with pending_review := none }
    (Relation.ReflTransGen.single (EngineStep.pending_cleared baseState))
    (by decide)

/-- C3 counterexample: in Scenario A exactly as the claim states it (fresh run
with retries_left 3, validator rejects twice with reason schema_missing, each
rejection routed back through table identification, third produced query
accepted), the final state has is_query_valid true but retries_left is not 2:
the engine decrements the budget on each of the two rejections. -/
theorem c3_scenario_a_not_two :
    scenarioA.is_query_valid = true ∧ scenarioA.retries_left ≠ 2 := by decide

/-- C3 amended: in Scenario A the final state has is_query_valid = true and
retries_left = 1, the initial 3 minus one decrement per validator rejection;
the run terminates with workflow_completed. -/
theorem c3_scenario_a_final :
    scenarioA.is_query_valid = true ∧ scenarioA.retries_left = 1 ∧
      scenarioA.current_step = "workflow_completed" := by decide

/-- C9: exceptions raised inside a stage process call are absorbed by the
engine wrappers, which return a state normally. The generic stage wrapper
converts a raised exception into exactly the step-retry handling, so the
resulting step is either a retry marking or a permanent failure; the HITL
review wrapper marks the review error step; the router wrapper marks
routing_error (or skips processing entirely while resuming). -/
theorem c9_exceptions_become_failures (s : AgentState) (cfg : StageCfg)
    (msg rn : String) :
    run_agent s cfg (.raises msg) =
      (handle_step_retry
        { s with current_step := "processing_" ++ stepKey cfg.step_name }
        cfg.step_name cfg.error_step).1
  ∧ ((run_agent s cfg (.raises msg)).current_step = cfg.error_step ++ "_retry" ∨
      (run_agent s cfg (.raises msg)).current_step = cfg.error_step ++ "_failed")
  ∧ run_hitl_review rn s (.raises msg) =
      { s with current_step := rn ++ "_error" }
  ∧ run_router_node s (.raises msg) =
      (if s.is_resuming then { s with current_step := "routing_completed" }
       else { s with current_step := "routing_error" }) := by
  refine ⟨rfl, handle_step_retry_current_step _ _ _, rfl, ?_⟩
  unfold run_router_node
  dsimp only

/-- C4: when the validator has run, the query is still invalid, the workflow
retry budget is exhausted and a query was produced, the post-validation router
terminates the workflow (end) with current_step max_retries_exhausted, keeps
the last produced query with its explanation rewritten from the outstanding
validation feedback, and sets the non-null advisory user message — a best
effort exit rather than a hard failure. -/
theorem c4_exhausted_best_effort (s : AgentState) (q : Query)
    (hvalid : s.is_query_valid = false) (hret : s.retries_left = 0)
    (hq : s.generated_query = some q) :
    (route_after_validation s).2 = "end"
  ∧ (route_after_validation s).1.current_step = "max_retries_exhausted"
  ∧ (route_after_validation s).1.user_message = some advisory_message
  ∧ (route_after_validation s).1.generated_query =
      some (update_query_with_validation_feedback q
        s.query_validation_feedback) := by
  have h0 : s.retries_left ≤ 0 := by omega
  unfold route_after_validation handle_exhausted_retries
  rw [hvalid, hq]
  simp [h0]

/-- Witness for C4 at a concrete exhausted state. -/
theorem c4_exhausted_best_effort_witness :
    (route_after_validation c4State).2 = "end"
  ∧ (route_after_validation c4State).1.current_step = "max_retries_exhausted"
  ∧ (route_after_validation c4State).1.user_message = some advisory_message
  ∧ (route_after_validation c4State).1.generated_query =
      some (update_query_with_validation_feedback demoQuery
        c4State.query_validation_feedback) :=
  c4_exhausted_best_effort c4State demoQuery (by decide) (by decide) (by decide)

/-- C5 counterexample: Router decision functions are not free of state
mutation. At this concrete snapshot (table modifications applied but not
approved) route_after_table_human_feedback returns a state different from the
one it was given: it clears feedback_processed. -/
theorem c5_router_mutates_state :
    (route_after_table_human_feedback c5State).1 ≠ c5State
  ∧ (route_after_table_human_feedback c5State).1.feedback_processed = false
  ∧ c5State.feedback_processed = true := by decide

/-- C5 amended: every Router decision function in the model depends on the
state snapshot alone (no hidden global state), and most leave the state
untouched; but the two human-feedback routers may clear feedback_processed
(changing nothing else), and the post-validation router rewrites current_step
and, on exhaustion, user_message and the query explanation (changing nothing
else). -/
theorem c5_router_effects (s : AgentState) :
    ((route_after_table_human_feedback s).1 = s ∨
      (route_after_table_human_feedback s).1 =
        { s with feedback_processed := false })
  ∧ ((route_after_database_human_feedback s).1 = s ∨
      (route_after_database_human_feedback s).1 =
        { s with feedback_processed := false })
  ∧ (route_after_validation s).1 =
      { s with
          current_step := (route_after_validation s).1.current_step
          user_message := (route_after_validation s).1.user_message
          generated_query := (route_after_validation s).1.generated_query } := by
  refine ⟨?_, ?_, ?_⟩
  · unfold route_after_table_human_feedback
    dsimp only
    split
    · exact Or.inl rfl
    · split
      · exact Or.inr rfl
      · exact Or.inl rfl
  · unfold route_after_database_human_feedback
    dsimp only
    split
    · exact Or.inl rfl
    · split
      · exact Or.inr rfl
      · exact Or.inl rfl
  · unfold route_after_validation handle_exhausted_retries
    dsimp only
    repeat' split
    all_goals rfl

theorem handle_step_retry_is_resuming (s : AgentState) (n e : String) :
    (handle_step_retry s n e).1.is_resuming = s.is_resuming := by
  unfold handle_step_retry
  repeat' split
  all_goals rfl

theorem run_agent_is_resuming (s : AgentState) (cfg : StageCfg)
    (o : AgentOutcome) : (run_agent s cfg o).is_resuming = s.is_resuming := by
  unfold run_agent
  dsimp only
  cases o with
  | raises m => exact handle_step_retry_is_resuming _ _ _
  | result r =>
      dsimp only
      cases r.state_updates with
      | none => exact handle_step_retry_is_resuming _ _ _
      | some u =>
          dsimp only
          split
          · rfl
          · exact handle_step_retry_is_resuming _ _ _

theorem run_query_validator_is_resuming (s : AgentState) (o : AgentOutcome) :
    (run_query_validator s o).is_resuming = s.is_resuming := by
  unfold run_query_validator decrement_retry_and_log
  dsimp only
  split
  · exact run_agent_is_resuming s queryValidationCfg o
  · exact run_agent_is_resuming s queryValidationCfg o

theorem run_router_node_is_resuming (s : AgentState) (o : AgentOutcome) :
    (run_router_node s o).is_resuming = s.is_resuming := by
  unfold run_router_node
  dsimp only
  repeat' split
  all_goals rfl

theorem run_hitl_review_is_resuming (rn : String) (s : AgentState)
    (o : AgentOutcome) :
    (run_hitl_review rn s o).is_resuming = s.is_resuming := by
  unfold run_hitl_review
  dsimp only
  repeat' split
  all_goals rfl

theorem route_after_validation_is_resuming (s : AgentState) :
    (route_after_validation s).1.is_resuming = s.is_resuming := by
  unfold route_after_validation handle_exhausted_retries
  dsimp only
  repeat' split
  all_goals rfl

theorem route_feedback_is_resuming (s : AgentState) :
    (route_after_table_human_feedback s).1.is_resuming = s.is_resuming ∧
      (route_after_database_human_feedback s).1.is_resuming = s.is_resuming := by
  unfold route_after_table_human_feedback route_after_database_human_feedback
  dsimp only
  constructor
  all_goals repeat' split
  all_goals rfl

theorem apply_hitl_feedback_is_resuming (s : AgentState) (fb : HitlFeedback) :
    (apply_hitl_feedback s fb).is_resuming = s.is_resuming := by
  unfold apply_hitl_feedback
  dsimp only
  repeat' split
  all_goals rfl

/-- No engine operation clears is_resuming: once set, it survives every step. -/
theorem engine_step_is_resuming {s s' : AgentState} (hstep : EngineStep s s')
    (h : s.is_resuming = true) : s'.is_resuming = true := by
  cases hstep with
  | agent_run cfg o => rw [run_agent_is_resuming]; exact h
  | validator_run o => rw [run_query_validator_is_resuming]; exact h
  | router_node_run o => rw [run_router_node_is_resuming]; exact h
  | hitl_review_run rn o => rw [run_hitl_review_is_resuming]; exact h
  | validation_route => rw [route_after_validation_is_resuming]; exact h
  | database_feedback_route => rw [(route_feedback_is_resuming s).2]; exact h
  | table_feedback_route => rw [(route_feedback_is_resuming s).1]; exact h
  | hitl_feedback_merge fb => rw [apply_hitl_feedback_is_resuming]; exact h
  | pending_cleared => exact h
  | resume_marked node => rfl
  | workflow_failed_set => exact h

/-- C6 counterexample: at a concrete resuming state the router does return
resume_start_node, but is_resuming is never cleared: after the router node
runs and the routing decision is taken, the flag is still true, contradicting
the claim that the Router sets it false. -/
theorem c6_is_resuming_not_cleared :
    route_after_router c6State = some "column_identifier"
  ∧ (run_router_node c6State routerOk).is_resuming = true
  ∧ (run_router_node c6State routerOk).current_step = "routing_completed" := by
  decide

/-- C6 amended: whenever is_resuming is true, route_after_router returns
exactly resume_start_node, bypassing every other routing rule, and the router
node skips agent processing; but the flag is never cleared — no engine
operation sets it back to false, so it remains true for the rest of the
execution (downstream step-retry routing instead guards on is_resuming
explicitly). -/
theorem c6_resume_bypass (s s' : AgentState) (o : AgentOutcome)
    (h : s.is_resuming = true) (hstep : EngineStep s s') :
    route_after_router s = s.resume_start_node
  ∧ run_router_node s o = { s with current_step := "routing_completed" }
  ∧ s'.is_resuming = true := by
  refine ⟨?_, ?_, engine_step_is_resuming hstep h⟩
  · unfold route_after_router
    rw [if_pos h]
  · unfold run_router_node
    dsimp only
    rw [if_pos h]

/-- Witness for C6 at a concrete resuming state and one concrete engine step. -/
theorem c6_resume_bypass_witness :
    route_after_router c6State = c6State.resume_start_node
  ∧ run_router_node c6State routerOk =
      { c6State with current_step := "routing_completed" }
  ∧ ({ c6State with pending_review := none } : AgentState).is_resuming = true :=
  c6_resume_bypass c6State { c6State with pending_review := none } routerOk
    (by decide) (EngineStep.pending_cleared c6State)

theorem apply_hitl_feedback_approve_tables (susp : AgentState)
    (fb : HitlFeedback) (hfb : fb.review_type = "tables")
    (hact : fb.action = "approve") :
    (apply_hitl_feedback susp fb).current_step = susp.current_step
  ∧ (apply_hitl_feedback susp fb).human_approvals =
      aset susp.human_approvals "tables" true
  ∧ (apply_hitl_feedback susp fb).pending_review = susp.pending_review := by
  unfold apply_hitl_feedback
  rw [hfb, hact]
  rw [if_neg (by decide :
    ¬(("tables" : String) ≠ "databases" ∧ ("tables" : String) ≠ "tables"))]
  dsimp only
  repeat' split
  all_goals exact ⟨rfl, rfl, rfl⟩

/-- In a state whose current step is the completed table review, whose table
approval is granted and whose database approval is granted (as every
interactive execution that reached table review guarantees), the resume node
computation lands on column identification. -/
theorem determine_resume_node_table_approved (r : AgentState)
    (hcs : r.current_step = "table_review_completed")
    (htab : alookup r.human_approvals "tables" = some true)
    (hdb : alookup r.human_approvals "databases" = some true) :
    determine_resume_node r = "column_identifier" := by
  have e1 : py_endsWith "table_review_completed" "_completed" = true := by decide
  have e2 : py_startsWith "table_review_completed" "retry_" = false := by decide
  have e3 : py_startsWith "table_review_completed" "route_to_" = false := by
    decide
  have e4 : step_to_node_mapping "table_review_completed" =
      some "column_identifier" := by decide
  unfold determine_resume_node resume_pending_checks resume_from_step
    resume_from_mapping
  rw [hcs]
  simp [e1, e2, e3, e4, htab, hdb]

/-- C7: for every state suspended at the table review checkpoint
(current_step table_review_completed, databases approved earlier in the
interactive flow) into which table approval feedback has been merged via the
transport handler and whose pending review has been cleared, resume re-enters
the workflow at column identification — the stage immediately following table
review — and never at database identification; the resume marking then routes
the graph entry straight to that node. -/
theorem c7_resume_after_table_approval (susp : AgentState) (fb : HitlFeedback)
    (hstep : susp.current_step = "table_review_completed")
    (hdb : alookup susp.human_approvals "databases" = some true)
    (hfb : fb.review_type = "tables") (hact : fb.action = "approve") :
    determine_resume_node
      { apply_hitl_feedback susp fb with pending_review := none } =
        "column_identifier"
  ∧ route_after_router
      (mark_resuming { apply_hitl_feedback susp fb with pending_review := none }
        (determine_resume_node
          { apply_hitl_feedback susp fb with pending_review := none })) =
        some "column_identifier"
  ∧ determine_resume_node
      { apply_hitl_feedback susp fb with pending_review := none } ≠
        "database_identifier" := by
  obtain ⟨h1, h2, _⟩ := apply_hitl_feedback_approve_tables susp fb hfb hact
  have hres : determine_resume_node
      { apply_hitl_feedback susp fb with pending_review := none } =
        "column_identifier" := by
    apply determine_resume_node_table_approved
    · show (apply_hitl_feedback susp fb).current_step = _
      rw [h1, hstep]
    · show alookup (apply_hitl_feedback susp fb).human_approvals "tables" = _
      rw [h2, alookup_aset]
      simp
    · show alookup (apply_hitl_feedback susp fb).human_approvals "databases" = _
      rw [h2, alookup_aset]
      simp [hdb]
  refine ⟨hres, ?_, by rw [hres]; decide⟩
  rw [hres]
  unfold route_after_router mark_resuming
  simp

/-- Witness for C7 at a concrete suspended state and approval payload. -/
theorem c7_resume_after_table_approval_witness :
    determine_resume_node
      { apply_hitl_feedback c7Susp c7Fb with pending_review := none } =
        "column_identifier"
  ∧ route_after_router
      (mark_resuming
        { apply_hitl_feedback c7Susp c7Fb with pending_review := none }
        (determine_resume_node
          { apply_hitl_feedback c7Susp c7Fb with pending_review := none })) =
        some "column_identifier"
  ∧ determine_resume_node
      { apply_hitl_feedback c7Susp c7Fb with pending_review := none } ≠
        "database_identifier" :=
  c7_resume_after_table_approval c7Susp c7Fb (by decide) (by decide) rfl rfl

theorem modification_effects_changes_indep (ct : String)
    (findDb : String → Option String) (state : AgentState) (fb : HumanFeedback)
    (hf1 : Option (Option String)) :
    (modification_effects ct findDb state fb hf1).2.1 =
      feedback_changes_made ct findDb state fb := by
  unfold feedback_changes_made modification_effects
  dsimp only
  repeat' split
  all_goals rfl

/-- C8 counterexample: a modify round that did change the reviewed table list
is not always re-displayed. At this concrete suspended state the stored
feedback is interpreted as a replace modification that shrinks the list from
two tables to one; the merged state records the change
(feedback_processed true, last_modification_type replace, approval withheld),
yet the router sends the workflow back to table_identifier — re-running the
producing identification stage — instead of re-displaying the checkpoint. -/
theorem c8_replace_not_redisplayed :
    c8Merged.relevant_tables = ["sales_db.orders"]
  ∧ c8State.relevant_tables = ["sales_db.customers", "sales_db.orders"]
  ∧ c8Merged.feedback_processed = true
  ∧ c8Merged.last_modification_type = some "replace"
  ∧ alookup c8Merged.human_approvals "tables" = some false
  ∧ (route_after_table_human_feedback c8Merged).2 = "table_identifier"
  ∧ (route_after_table_human_feedback c8Merged).2 ≠ "table_human_review" := by
  decide

/-- C8 amended: for a MODIFY feedback round on the table checkpoint, (a) when
the interpretation produced no net change the checkpoint auto-promotes to
approve (approval set true, no re-display flag); (b) when it changed the list
the updates record the change (approval withheld, feedback_processed set, the
modification type stored); the router then re-displays the same checkpoint for
add and remove modifications (clearing the re-display flag), but a changing
replace modification is routed back to the producing identification stage
instead. -/
theorem c8_modify_feedback_routing (s m : AgentState) (fb : HumanFeedback)
    (findDb : String → Option String)
    (hmod : fb.approval_status = "MODIFY") :
    (feedback_changes_made "tables" findDb s fb = false →
      alookup ((convert_feedback_to_state_updates "tables" findDb s
          fb).human_approvals.getD []) "tables" = some true
      ∧ (convert_feedback_to_state_updates "tables" findDb s
          fb).feedback_processed = some false)
  ∧ (feedback_changes_made "tables" findDb s fb = true →
      alookup ((convert_feedback_to_state_updates "tables" findDb s
          fb).human_approvals.getD []) "tables" = some false
      ∧ (convert_feedback_to_state_updates "tables" findDb s
          fb).feedback_processed = some true
      ∧ (convert_feedback_to_state_updates "tables" findDb s
          fb).last_modification_type = some (some fb.modification_type))
  ∧ (alookup m.human_approvals "tables" = some false →
      m.feedback_processed = true →
      (m.last_modification_type = some "add" ∨
        m.last_modification_type = some "remove" ∨
        m.last_modification_type = some "modify") →
      (route_after_table_human_feedback m).2 = "table_human_review"
      ∧ (route_after_table_human_feedback m).1.feedback_processed = false)
  ∧ (alookup m.human_approvals "tables" = some false →
      m.feedback_processed = true →
      m.last_modification_type = some "replace" →
      (route_after_table_human_feedback m).2 = "table_identifier") := by
  refine ⟨?_, ?_, ?_, ?_⟩
  · intro hc
    unfold convert_feedback_to_state_updates
    rw [hmod]
    dsimp only
    rw [modification_effects_changes_indep, hc]
    simp +decide [alookup_aset]
  · intro hc
    unfold convert_feedback_to_state_updates
    rw [hmod]
    dsimp only
    rw [modification_effects_changes_indep, hc]
    simp +decide [alookup_aset]
  · intro h1 h2 h3
    unfold route_after_table_human_feedback
    rcases h3 with h3 | h3 | h3 <;> simp [h1, h2, h3]
  · intro h1 h2 h3
    unfold route_after_table_human_feedback
    simp +decide [h1, h2, h3]

/-- Witness for C8 at the concrete replace scenario: the feedback changed the
list, so the change branch and the replace routing branch apply. -/
theorem c8_modify_feedback_routing_witness :
    (feedback_changes_made "tables" noDb c8State c8Llm = false →
      alookup ((convert_feedback_to_state_updates "tables" noDb c8State
          c8Llm).human_approvals.getD []) "tables" = some true
      ∧ (convert_feedback_to_state_updates "tables" noDb c8State
          c8Llm).feedback_processed = some false)
  ∧ (feedback_changes_made "tables" noDb c8State c8Llm = true →
      alookup ((convert_feedback_to_state_updates "tables" noDb c8State
          c8Llm).human_approvals.getD []) "tables" = some false
      ∧ (convert_feedback_to_state_updates "tables" noDb c8State
          c8Llm).feedback_processed = some true
      ∧ (convert_feedback_to_state_updates "tables" noDb c8State
          c8Llm).last_modification_type = some (some c8Llm.modification_type))
  ∧ (alookup c8Merged.human_approvals "tables" = some false →
      c8Merged.feedback_processed = true →
      (c8Merged.last_modification_type = some "add" ∨
        c8Merged.last_modification_type = some "remove" ∨
        c8Merged.last_modification_type = some "modify") →
      (route_after_table_human_feedback c8Merged).2 = "table_human_review"
      ∧ (route_after_table_human_feedback c8Merged).1.feedback_processed =
          false)
  ∧ (alookup c8Merged.human_approvals "tables" = some false →
      c8Merged.feedback_processed = true →
      c8Merged.last_modification_type = some "replace" →
      (route_after_table_human_feedback c8Merged).2 = "table_identifier") :=
  c8_modify_feedback_routing c8State c8Merged c8Llm noDb rfl

theorem run_hitl_review_success (rn : String) (s : AgentState)
    (r : AgentResult) (u : StateUpdates) (hu : r.state_updates = some u)
    (hs : r.success = true) (hne : u ≠ emptyUpdates) :
    run_hitl_review rn s (.result r) =
      { update_state_with_preservation
          { s with current_step := "processing_" ++ rn } u with
        current_step := rn ++ "_completed" } := by
  unfold run_hitl_review
  dsimp only
  rw [hu]
  dsimp only
  rw [if_pos ⟨hs, hne⟩]

/-- C10: a HITL checkpoint that runs while its reviewable list is empty never
suspends: the agent succeeds immediately with approval granted for its type and
feedback no_items, emits no pending review, the merged state completes the
review step with the approval and no pending review, and routing proceeds to
the next pipeline stage (column identification after table review, table
identification after database review). -/
theorem c10_empty_review_skips (s : AgentState)
    (findDb : String → Option String) (isValid : String → Bool)
    (llm : HumanFeedback) (htab : s.relevant_tables = [])
    (hdbs : s.relevant_databases = []) (hpend : s.pending_review = none) :
    (hitl_process "tables" findDb isValid llm s).success = true
  ∧ (hitl_process "tables" findDb isValid llm s).state_updates =
      some (no_items_updates "tables")
  ∧ (run_hitl_review "table_review" s
      (.result (hitl_process "tables" findDb isValid llm s))).current_step =
        "table_review_completed"
  ∧ alookup (run_hitl_review "table_review" s
      (.result (hitl_process "tables" findDb isValid llm s))).human_approvals
        "tables" = some true
  ∧ (run_hitl_review "table_review" s
      (.result (hitl_process "tables" findDb isValid llm s))).human_feedback =
        some "no_items"
  ∧ (run_hitl_review "table_review" s
      (.result (hitl_process "tables" findDb isValid llm s))).pending_review =
        none
  ∧ (route_after_table_human_feedback (run_hitl_review "table_review" s
      (.result (hitl_process "tables" findDb isValid llm s)))).2 =
        "column_identifier"
  ∧ (hitl_process "databases" findDb isValid llm s).state_updates =
      some (no_items_updates "databases")
  ∧ (route_after_database_human_feedback (run_hitl_review "database_review" s
      (.result (hitl_process "databases" findDb isValid llm s)))).2 =
        "table_identifier" := by
  have hpt : hitl_process "tables" findDb isValid llm s =
      { success := true
        message := "No " ++ "tables" ++ " to review, proceeding"
        state_updates := some (no_items_updates "tables") } := by
    unfold hitl_process relevant_items no_items_updates
    simp [htab]
  have hpd : hitl_process "databases" findDb isValid llm s =
      { success := true
        message := "No " ++ "databases" ++ " to review, proceeding"
        state_updates := some (no_items_updates "databases") } := by
    unfold hitl_process relevant_items no_items_updates
    simp [hdbs]
  have hrt := run_hitl_review_success "table_review" s
    (hitl_process "tables" findDb isValid llm s) (no_items_updates "tables")
    (by rw [hpt]) (by rw [hpt]) (by decide)
  have hrd := run_hitl_review_success "database_review" s
    (hitl_process "databases" findDb isValid llm s)
    (no_items_updates "databases")
    (by rw [hpd]) (by rw [hpd]) (by decide)
  refine ⟨by rw [hpt], by rw [hpt], ?_, ?_, ?_, ?_, ?_, by rw [hpd], ?_⟩
  · rw [hrt]
    rfl
  · rw [hrt]
    rfl
  · rw [hrt]
    rfl
  · rw [hrt]
    show s.pending_review = none
    exact hpend
  · rw [hrt]
    rfl
  · rw [hrd]
    rfl

/-- Witness for C10 at the fresh initial state, whose reviewable lists are
empty and which carries no pending review. -/
theorem c10_empty_review_skips_witness :
    (hitl_process "tables" noDb allValid c8Llm baseState).success = true
  ∧ (hitl_process "tables" noDb allValid c8Llm baseState).state_updates =
      some (no_items_updates "tables")
  ∧ (run_hitl_review "table_review" baseState
      (.result (hitl_process "tables" noDb allValid c8Llm
        baseState))).current_step = "table_review_completed"
  ∧ alookup (run_hitl_review "table_review" baseState
      (.result (hitl_process "tables" noDb allValid c8Llm
        baseState))).human_approvals "tables" = some true
  ∧ (run_hitl_review "table_review" baseState
      (.result (hitl_process "tables" noDb allValid c8Llm
        baseState))).human_feedback = some "no_items"
  ∧ (run_hitl_review "table_review" baseState
      (.result (hitl_process "tables" noDb allValid c8Llm
        baseState))).pending_review = none
  ∧ (route_after_table_human_feedback (run_hitl_review "table_review" baseState
      (.result (hitl_process "tables" noDb allValid c8Llm baseState)))).2 =
        "column_identifier"
  ∧ (hitl_process "databases" noDb allValid c8Llm baseState).state_updates =
      some (no_items_updates "databases")
  ∧ (route_after_database_human_feedback (run_hitl_review "database_review"
      baseState (.result (hitl_process "databases" noDb allValid c8Llm
        baseState)))).2 = "table_identifier" :=
  c10_empty_review_skips baseState noDb allValid c8Llm rfl rfl rfl

end Lang2Query
